import Mathlib

/-!
Verification of the CardioRisk backend's deterministic post-processing
pipeline (`app/predictor.py`, `app/models.py`, `app/main.py`).

Machine floats in the Python source are modelled as rationals (`ℚ`); all
constants in the source are decimal literals, so the rational semantics is
the intended real-number reading of the code.  Python strings are modelled
as `String`, dictionaries loaded from pickle artifacts (classifier, scaler,
encoding catalog) as explicit function parameters.
-/

namespace CardioRisk

/-- The patient input record, mirroring `PatientData` in `app/models.py`
(fields and types; `age`, `stress_level` are ints, `exercise_hours` a float,
the rest strings). -/
structure PatientData where
  age : ℤ
  gender : String
  smoking : String
  alcohol_intake : String
  exercise_hours : ℚ
  diabetes : String
  family_history : String
  obesity : String
  stress_level : ℤ
deriving DecidableEq, Repr

/-- Validity predicate collecting the pydantic `Field` ranges and
`field_validator` enum checks of `app/models.py`. -/
def ValidRecord (p : PatientData) : Prop :=
  18 ≤ p.age ∧ p.age ≤ 100 ∧
  (p.gender = "Male" ∨ p.gender = "Female") ∧
  (p.smoking = "Never" ∨ p.smoking = "Former" ∨ p.smoking = "Current") ∧
  (p.alcohol_intake = "None" ∨ p.alcohol_intake = "Light" ∨
    p.alcohol_intake = "Moderate" ∨ p.alcohol_intake = "Heavy") ∧
  0 ≤ p.exercise_hours ∧ p.exercise_hours ≤ 24 ∧
  (p.diabetes = "Yes" ∨ p.diabetes = "No") ∧
  (p.family_history = "Yes" ∨ p.family_history = "No") ∧
  (p.obesity = "Yes" ∨ p.obesity = "No") ∧
  1 ≤ p.stress_level ∧ p.stress_level ≤ 10

instance (p : PatientData) : Decidable (ValidRecord p) := by
  unfold ValidRecord; infer_instance

/-! ### Rule groups of `_apply_medical_logic` (predictor.py lines 125-264)

The Python function accumulates `risk_score` and `protective_score`
sequentially.  Each `if`/`elif` group touches the accumulators
independently, except the stress rule (lines 200-204) whose contribution
is multiplied by a synergy factor depending on the risk accumulated so
far.  We give each group its own contribution function and reassemble the
accumulators in the source's evaluation order. -/

/-- Age block, risk side (predictor.py lines 128-151): first matching band. -/
def ageRisk (p : PatientData) : ℚ :=
  if p.gender = "Male" then
    if p.age ≥ 65 then 0.28
    else if p.age ≥ 55 then 0.18
    else if p.age ≥ 45 then 0.12
    else if p.age ≥ 35 then 0.05
    else 0
  else
    if p.age ≥ 70 then 0.25
    else if p.age ≥ 60 then 0.15
    else if p.age ≥ 50 then 0.08
    else if p.age ≥ 40 then 0.03
    else 0

/-- Age block, protective side (predictor.py lines 138-139, 150-151): the
final `elif` of each gender chain. -/
def ageProtect (p : PatientData) : ℚ :=
  if p.gender = "Male" then
    if p.age ≥ 35 then 0 else if p.age ≤ 25 then 0.18 else 0
  else
    if p.age ≥ 40 then 0 else if p.age ≤ 30 then 0.20 else 0

/-- Smoking risk (predictor.py lines 154-168). -/
def smokingRisk (p : PatientData) : ℚ :=
  if p.smoking = "Current" then
    if p.age ≥ 50 then 0.22 + 0.08
    else if p.age ≥ 35 then 0.22 + 0.04
    else 0.22
  else if p.smoking = "Former" then
    if p.age ≥ 50 then 0.08 else 0.04
  else 0

/-- Diabetes risk (predictor.py lines 171-176). -/
def diabetesRisk (p : PatientData) : ℚ :=
  if p.diabetes = "Yes" then
    if p.age ≥ 50 then 0.20 + 0.05 else 0.20
  else 0

/-- Obesity risk (predictor.py lines 179-183). -/
def obesityRisk (p : PatientData) : ℚ :=
  if p.obesity = "Yes" then
    if p.age ≤ 40 then 0.15 else 0.12
  else 0

/-- Family-history risk (predictor.py lines 186-190). -/
def familyRisk (p : PatientData) : ℚ :=
  if p.family_history = "Yes" then
    if p.age ≤ 45 then 0.12 else 0.08
  else 0

/-- Heavy-alcohol risk (predictor.py lines 193-197). -/
def alcoholRisk (p : PatientData) : ℚ :=
  if p.alcohol_intake = "Heavy" then
    if p.age ≥ 50 then 0.12 else 0.08
  else 0

/-- Stress risk (predictor.py lines 200-206).  `acc` is the risk score
accumulated before this rule runs; for stress ≥ 8 the base 0.12 is scaled
by `min (1 + acc * 0.5) 1.5`. -/
def stressRisk (p : PatientData) (acc : ℚ) : ℚ :=
  if p.stress_level ≥ 8 then 0.12 * min (1 + acc * 0.5) 1.5
  else if p.stress_level ≥ 6 then 0.06
  else 0

/-- Risk side of the exercise chain (predictor.py lines 221-224): the
sedentary `elif` branches reached when no protective band matched. -/
def exerciseRisk (p : PatientData) : ℚ :=
  if p.exercise_hours ≥ 1 then 0
  else if p.exercise_hours < 0.5 then 0.12
  else 0.08

/-- Protective side of the exercise chain (predictor.py lines 211-220). -/
def exerciseProtect (p : PatientData) : ℚ :=
  if p.exercise_hours ≥ 7 then 0.20
  else if p.exercise_hours ≥ 5 then 0.16
  else if p.exercise_hours ≥ 3 then 0.12
  else if p.exercise_hours ≥ 1.5 then 0.07
  else if p.exercise_hours ≥ 1 then 0.03
  else 0

/-- Never-smoked protection (predictor.py lines 227-231). -/
def smokingProtect (p : PatientData) : ℚ :=
  if p.smoking = "Never" then
    if p.age ≥ 50 then 0.15 else 0.10
  else 0

/-- Alcohol protection (predictor.py lines 234-242). -/
def alcoholProtect (p : PatientData) : ℚ :=
  if p.alcohol_intake = "None" then 0.06
  else if p.alcohol_intake = "Light" then 0.08
  else if p.alcohol_intake = "Moderate" then
    if p.age ≥ 40 then 0.04 else 0.01
  else 0

/-- Stress protection (predictor.py lines 245-250). -/
def stressProtect (p : PatientData) : ℚ :=
  if p.stress_level ≤ 2 then 0.12
  else if p.stress_level ≤ 4 then 0.08
  else if p.stress_level ≤ 6 then 0.04
  else 0

/-- No-diabetes protection (predictor.py lines 254-255). -/
def diabetesAbsentProtect (p : PatientData) : ℚ :=
  if p.diabetes = "No" then 0.06 else 0

/-- No-obesity protection (predictor.py lines 258-259). -/
def obesityAbsentProtect (p : PatientData) : ℚ :=
  if p.obesity = "No" then 0.06 else 0

/-- Clean-profile bonus (predictor.py lines 262-264):
`medical_conditions_absent == 2` means both diabetes and obesity are "No". -/
def cleanProfileBonus (p : PatientData) : ℚ :=
  if p.diabetes = "No" ∧ p.obesity = "No" ∧ p.smoking = "Never" then 0.05 else 0

/-- The risk score accumulated before the stress rule runs: the age,
smoking, diabetes, obesity, family-history and alcohol groups, in source
order (all additive). -/
def preStressRisk (p : PatientData) : ℚ :=
  ageRisk p + smokingRisk p + diabetesRisk p + obesityRisk p +
    familyRisk p + alcoholRisk p

/-- Final `risk_score` of `_apply_medical_logic`: the additive groups, the
stress rule evaluated on the risk accumulated so far, then the sedentary
exercise branch (which in the source appears after the stress rule). -/
def riskScore (p : PatientData) : ℚ :=
  preStressRisk p + stressRisk p (preStressRisk p) + exerciseRisk p

/-- Final `protective_score` of `_apply_medical_logic`: all protective
groups are additive. -/
def protectiveScore (p : PatientData) : ℚ :=
  ageProtect p + exerciseProtect p + smokingProtect p + alcoholProtect p +
    stressProtect p + diabetesAbsentProtect p + obesityAbsentProtect p +
    cleanProfileBonus p

/-! #### The rule groups as an ordered list

To reason about evaluation order, each accumulator's rule groups are named
by a tag and evaluated by folding over a list of tags; `riskRuleOrder` and
`protectiveRuleOrder` are the source's evaluation orders.  A risk rule's
contribution may read the accumulator value (only the stress rule does). -/

/-- Tags for the risk-increasing rule groups of `_apply_medical_logic`. -/
inductive RiskRule where
  | age | smoking | diabetes | obesity | family | alcohol | stress | exercise
deriving DecidableEq, Repr

/-- Contribution of one risk rule group, given the risk score `acc`
accumulated so far (only the stress rule reads it). -/
def riskRuleEval (r : RiskRule) (p : PatientData) (acc : ℚ) : ℚ :=
  match r with
  | RiskRule.age => ageRisk p
  | RiskRule.smoking => smokingRisk p
  | RiskRule.diabetes => diabetesRisk p
  | RiskRule.obesity => obesityRisk p
  | RiskRule.family => familyRisk p
  | RiskRule.alcohol => alcoholRisk p
  | RiskRule.stress => stressRisk p acc
  | RiskRule.exercise => exerciseRisk p

/-- The source's evaluation order of the risk rule groups (predictor.py
lines 128-224; the sedentary exercise branch sits after the stress rule). -/
def riskRuleOrder : List RiskRule :=
  [RiskRule.age, RiskRule.smoking, RiskRule.diabetes, RiskRule.obesity,
   RiskRule.family, RiskRule.alcohol, RiskRule.stress, RiskRule.exercise]

/-- The seven risk rule groups whose contribution ignores the accumulator. -/
def additiveRiskRules : List RiskRule :=
  [RiskRule.age, RiskRule.smoking, RiskRule.diabetes, RiskRule.obesity,
   RiskRule.family, RiskRule.alcohol, RiskRule.exercise]

/-- Accumulate the risk rule groups in the given order, starting from 0. -/
def evalRiskRules (rules : List RiskRule) (p : PatientData) : ℚ :=
  rules.foldl (fun acc r => acc + riskRuleEval r p acc) 0

/-- Tags for the protective rule groups of `_apply_medical_logic`. -/
inductive ProtectiveRule where
  | age | exercise | smoking | alcohol | stress | diabetesAbsent | obesityAbsent
  | cleanBonus
deriving DecidableEq, Repr

/-- Contribution of one protective rule group (all are additive). -/
def protectiveRuleEval (r : ProtectiveRule) (p : PatientData) : ℚ :=
  match r with
  | ProtectiveRule.age => ageProtect p
  | ProtectiveRule.exercise => exerciseProtect p
  | ProtectiveRule.smoking => smokingProtect p
  | ProtectiveRule.alcohol => alcoholProtect p
  | ProtectiveRule.stress => stressProtect p
  | ProtectiveRule.diabetesAbsent => diabetesAbsentProtect p
  | ProtectiveRule.obesityAbsent => obesityAbsentProtect p
  | ProtectiveRule.cleanBonus => cleanProfileBonus p

/-- The source's evaluation order of the protective rule groups
(predictor.py lines 138-151, 211-264). -/
def protectiveRuleOrder : List ProtectiveRule :=
  [ProtectiveRule.age, ProtectiveRule.exercise, ProtectiveRule.smoking,
   ProtectiveRule.alcohol, ProtectiveRule.stress, ProtectiveRule.diabetesAbsent,
   ProtectiveRule.obesityAbsent, ProtectiveRule.cleanBonus]

/-- Accumulate the protective rule groups in the given order. -/
def evalProtectiveRules (rules : List ProtectiveRule) (p : PatientData) : ℚ :=
  rules.foldl (fun acc r => acc + protectiveRuleEval r p) 0

/-- `major_risk_factors` (predictor.py lines 331-339): count of the seven
major risk conditions. -/
def majorRiskFactors (p : PatientData) : ℕ :=
  (if p.smoking = "Current" then 1 else 0) +
  (if p.diabetes = "Yes" then 1 else 0) +
  (if p.obesity = "Yes" then 1 else 0) +
  (if p.family_history = "Yes" then 1 else 0) +
  (if p.exercise_hours < 1 then 1 else 0) +
  (if p.stress_level ≥ 8 then 1 else 0) +
  (if p.alcohol_intake = "Heavy" then 1 else 0)

/-- Blending of the model probability with the rule-based logic
probability (predictor.py lines 266-285). -/
def blendedProb (p : PatientData) (base_probability : ℚ) : ℚ :=
  let risk_score := riskScore p
  let protective_score := protectiveScore p
  let net_adjustment := risk_score - protective_score
  let total_factors := risk_score + protective_score
  let model_weight : ℚ :=
    if total_factors > 0.4 then 0.45
    else if total_factors > 0.2 then 0.55
    else 0.65
  let logic_weight : ℚ :=
    if total_factors > 0.4 then 0.55
    else if total_factors > 0.2 then 0.45
    else 0.35
  let logic_probability := max 0.02 (min 0.98 (base_probability + net_adjustment))
  model_weight * base_probability + logic_weight * logic_probability

/-- Override: very young, fully healthy profile (predictor.py lines
290-296): cap at 0.12. -/
def overrideYoungHealthy (p : PatientData) (adjusted_prob : ℚ) : ℚ :=
  if p.age ≤ 25 ∧ p.smoking = "Never" ∧ p.diabetes = "No" ∧ p.obesity = "No" ∧
      p.exercise_hours ≥ 3 ∧ p.stress_level ≤ 5 then
    min adjusted_prob 0.12
  else adjusted_prob

/-- Override: indisputable high-risk profile (predictor.py lines 299-302):
floor at 0.65. -/
def overrideHighRisk (p : PatientData) (adjusted_prob : ℚ) : ℚ :=
  if p.age ≥ 60 ∧ p.smoking = "Current" ∧ p.diabetes = "Yes" then
    max adjusted_prob 0.65
  else adjusted_prob

/-- Override: young woman with protective factors (predictor.py lines
305-309): cap at 0.08. -/
def overrideYoungWoman (p : PatientData) (adjusted_prob : ℚ) : ℚ :=
  if p.gender = "Female" ∧ p.age ≤ 35 ∧ p.smoking = "Never" ∧ p.exercise_hours ≥ 2 then
    min adjusted_prob 0.08
  else adjusted_prob

/-- Override: young man with multiple risk factors (predictor.py lines
312-316): floor at 0.25. -/
def overrideYoungMaleSmoker (p : PatientData) (adjusted_prob : ℚ) : ℚ :=
  if p.gender = "Male" ∧ p.age ≤ 35 ∧ p.smoking = "Current" ∧
      (p.diabetes = "Yes" ∨ p.obesity = "Yes") then
    max adjusted_prob 0.25
  else adjusted_prob

/-- Override: metabolic syndrome (predictor.py lines 319-322): floor at
0.55. -/
def overrideMetabolicSyndrome (p : PatientData) (adjusted_prob : ℚ) : ℚ :=
  if p.obesity = "Yes" ∧ p.diabetes = "Yes" ∧ p.exercise_hours < 1 then
    max adjusted_prob 0.55
  else adjusted_prob

/-- Override: extreme-exercise profile (predictor.py lines 325-328):
multiply by 0.8. -/
def overrideExtremeExercise (p : PatientData) (adjusted_prob : ℚ) : ℚ :=
  if p.exercise_hours ≥ 6 ∧ p.smoking = "Never" ∧ p.stress_level ≤ 4 then
    adjusted_prob * 0.8
  else adjusted_prob

/-- Override: multiple major risk factors with age bands (predictor.py
lines 342-356). -/
def overrideMajorFactors (p : PatientData) (adjusted_prob : ℚ) : ℚ :=
  if majorRiskFactors p ≥ 4 then
    if p.age ≥ 50 then max adjusted_prob 0.60
    else if p.age ≥ 30 then max adjusted_prob 0.45
    else max adjusted_prob 0.35
  else if majorRiskFactors p ≥ 3 then
    if p.age ≥ 45 then max adjusted_prob 0.50
    else if p.age ≥ 25 then max adjusted_prob 0.40
    else adjusted_prob
  else if majorRiskFactors p ≥ 2 then
    if p.age ≥ 55 then max adjusted_prob 0.40 else adjusted_prob
  else adjusted_prob

/-- Synergy multiplier: current smoker and diabetic (predictor.py lines
359-360): multiply by 1.15. -/
def synergySmokerDiabetic (p : PatientData) (adjusted_prob : ℚ) : ℚ :=
  if p.smoking = "Current" ∧ p.diabetes = "Yes" then adjusted_prob * 1.15
  else adjusted_prob

/-- Synergy multiplier: high stress and sedentary (predictor.py lines
362-363): multiply by 1.10. -/
def synergyStressSedentary (p : PatientData) (adjusted_prob : ℚ) : ℚ :=
  if p.stress_level ≥ 8 ∧ p.exercise_hours < 1 then adjusted_prob * 1.10
  else adjusted_prob

/-- Blending, special-case overrides and synergy multipliers of
`_apply_medical_logic` (predictor.py lines 266-363), applied in the
source's fixed order, everything before the final clamp. -/
def adjustedBeforeClamp (p : PatientData) (base_probability : ℚ) : ℚ :=
  synergyStressSedentary p (synergySmokerDiabetic p (overrideMajorFactors p
    (overrideExtremeExercise p (overrideMetabolicSyndrome p
      (overrideYoungMaleSmoker p (overrideYoungWoman p (overrideHighRisk p
        (overrideYoungHealthy p (blendedProb p base_probability)))))))))

/-- `_apply_medical_logic` (predictor.py lines 116-366): blending, overrides
and synergy multipliers, then the final clamp to [0.01, 0.99] (line 366). -/
def apply_medical_logic (p : PatientData) (base_probability : ℚ) : ℚ :=
  max 0.01 (min 0.99 (adjustedBeforeClamp p base_probability))

/-- `get_risk_level` (predictor.py lines 368-375). -/
def get_risk_level (probability : ℚ) : String :=
  if probability ≥ 0.6 then "Alto Riesgo"
  else if probability ≥ 0.35 then "Riesgo Moderado"
  else "Bajo Riesgo"

/-! ### Feature encoding (`preprocess_data`, predictor.py lines 31-80)

The classifier, scaler and encoding catalog are pickle artifacts loaded at
startup (`_load_models`); their contents are not part of the repository, so
they are modelled as explicit parameters whose shape follows the spec's
EncodingCatalog / Scaler / RiskClassifier contracts. -/

/-- A failed dictionary lookup in `preprocess_data`.  Python raises
`KeyError(missing)` carrying the missing key. -/
inductive EncodingError where
  | keyError (missing : String) : EncodingError
deriving DecidableEq, Repr

/-- Modelled from the spec: the `encoding_info` pickle (EncodingCatalog
contract, spec §6) is not in the repository.  `encodings` sub-tables are
per-field partial maps value → code; `features` is the ordered feature
name list; `scaler_features` the subset to normalize. -/
structure EncodingCatalog where
  genderEnc : String → Option ℚ
  smokingEnc : String → Option ℚ
  diabetesEnc : String → Option ℚ
  familyHistoryEnc : String → Option ℚ
  obesityEnc : String → Option ℚ
  features : List String
  scaler_features : List String

/-- Python dict subscription `encodings[...][value]`: the value's code, or
a `KeyError` naming the missing key. -/
def lookupEnc (enc : String → Option ℚ) (v : String) : Except EncodingError ℚ :=
  match enc v with
  | some c => Except.ok c
  | none => Except.error (EncodingError.keyError v)

/-- The fixed ordinal alcohol mapping (predictor.py line 46). -/
def alcohol_mapping (s : String) : Option ℚ :=
  if s = "None" then some 0
  else if s = "Light" then some 1
  else if s = "Moderate" then some 2
  else if s = "Heavy" then some 3
  else none

/-- `feature_mapping.get(feature, feature.lower().replace(' ', '_'))`
(predictor.py lines 54-67). -/
def feature_mapping (feature : String) : String :=
  if feature = "Age" then "age"
  else if feature = "Gender" then "gender"
  else if feature = "Smoking" then "smoking"
  else if feature = "Alcohol Intake" then "alcohol_intake"
  else if feature = "Exercise Hours" then "exercise_hours"
  else if feature = "Diabetes" then "diabetes"
  else if feature = "Family History" then "family_history"
  else if feature = "Obesity" then "obesity"
  else if feature = "Stress Level" then "stress_level"
  else (feature.toLower).replace " " "_"

/-- The `data_dict` after categorical encoding (predictor.py lines 33-47):
numeric fields pass through, the five catalog-encoded codes and the alcohol
code overwrite their fields. -/
def dataDict (p : PatientData) (g s d f o a : ℚ) : String → Option ℚ := fun key =>
  if key = "age" then some (p.age : ℚ)
  else if key = "gender" then some g
  else if key = "smoking" then some s
  else if key = "alcohol_intake" then some a
  else if key = "exercise_hours" then some p.exercise_hours
  else if key = "diabetes" then some d
  else if key = "family_history" then some f
  else if key = "obesity" then some o
  else if key = "stress_level" then some (p.stress_level : ℤ)
  else none

/-- The assembly loop `for feature in feature_order: ...` (predictor.py
lines 66-68); `data_dict[key]` raises `KeyError(key)` for an unknown key. -/
def assembleFeatures (dict : String → Option ℚ) : List String → Except EncodingError (List ℚ)
  | [] => Except.ok []
  | f :: rest =>
    match dict (feature_mapping f) with
    | some v => (assembleFeatures dict rest).map (v :: ·)
    | none => Except.error (EncodingError.keyError (feature_mapping f))

/-- The scaling step (predictor.py lines 74-78): the positions of the
scaler features are overwritten with the scaler applied to just that
subvector, other positions pass through. -/
def applyScaler (scaler : List ℚ → List ℚ) (features scaler_features : List String)
    (vec : List ℚ) : List ℚ :=
  let idxs := scaler_features.map (fun f => features.indexOf f)
  let scaled := scaler (idxs.map (fun i => vec.getD i 0))
  (List.range vec.length).map (fun j =>
    if idxs.indexOf j < idxs.length then scaled.getD (idxs.indexOf j) (vec.getD j 0)
    else vec.getD j 0)

/-- `preprocess_data` (predictor.py lines 31-80). -/
def preprocess_data (cat : EncodingCatalog) (scaler : List ℚ → List ℚ)
    (p : PatientData) : Except EncodingError (List ℚ) := do
  let g ← lookupEnc cat.genderEnc p.gender
  let s ← lookupEnc cat.smokingEnc p.smoking
  let d ← lookupEnc cat.diabetesEnc p.diabetes
  let f ← lookupEnc cat.familyHistoryEnc p.family_history
  let o ← lookupEnc cat.obesityEnc p.obesity
  let a := (alcohol_mapping p.alcohol_intake).getD 2
  let vec ← assembleFeatures (dataDict p g s d f o a) cat.features
  return applyScaler scaler cat.features cat.scaler_features vec

/-! ### The prediction pipeline (`predict`, predictor.py lines 82-114) -/

/-- Modelled from the spec: the trained classifier pickle is not in the
repository.  The RiskClassifier contract (spec §6): `predict(vector)->bit`,
`predict_proba(vector)->float` (probability of class 1), optional
`estimators_` sub-models each exposing `predict_proba`. -/
structure RiskClassifier where
  predict : List ℚ → ℤ
  predict_proba : List ℚ → ℚ
  estimators : Option (List (List ℚ → ℚ))

/-- Ensemble confidence interval (predictor.py lines 104-107). -/
def confidence_interval_ensemble (p σ : ℚ) : ℚ × ℚ :=
  (max 0 (p - 1.96 * σ), min 1 (p + 1.96 * σ))

/-- Fallback confidence interval (predictor.py lines 109-112). -/
def confidence_interval_fixed (p : ℚ) : ℚ × ℚ :=
  (max 0 (p - 0.1), min 1 (p + 0.1))

/-- `predict` (predictor.py lines 82-114).  `std` models `np.std`, an
external numeric routine (its value is the ensemble standard deviation).
The classifier's own 0/1 prediction is computed (line 88) but the returned
label is re-derived from the adjusted probability (line 95). -/
def predict (clf : RiskClassifier) (cat : EncodingCatalog) (scaler : List ℚ → List ℚ)
    (std : List ℚ → ℚ) (p : PatientData) :
    Except EncodingError (ℤ × ℚ × (ℚ × ℚ)) := do
  let processed ← preprocess_data cat scaler p
  let _model_prediction := clf.predict processed
  let model_probability := clf.predict_proba processed
  let adjusted_probability := apply_medical_logic p model_probability
  let final_prediction : ℤ := if adjusted_probability ≥ 0.5 then 1 else 0
  let confidence_interval :=
    match clf.estimators with
    | some trees =>
        let std_dev := std (trees.map (fun t => t processed))
        confidence_interval_ensemble adjusted_probability std_dev
    | none => confidence_interval_fixed adjusted_probability
  return (final_prediction, adjusted_probability, confidence_interval)

/-! ### Risk factor extraction (`get_risk_factors`, predictor.py lines 377-460)

The Python function builds an insertion-ordered dict from the patient
record alone.  We model it as the ordered association list obtained by
concatenating each group's optional entry in source order.  Interpolated
numbers (f-strings) are rendered with `toString`; the rational rendering
of `exercise_hours` differs from Python's float rendering, which affects
no claim (claims concern keys, presence and cross-classifier equality). -/

/-- Age entry (predictor.py lines 382-395). -/
def ageFactor (p : PatientData) : Option (String × String) :=
  if p.gender = "Male" then
    if p.age ≥ 60 then some ("Edad", toString p.age ++ " años - Hombre (riesgo alto por edad avanzada)")
    else if p.age ≥ 45 then some ("Edad", toString p.age ++ " años - Hombre (riesgo moderado por edad)")
    else if p.age ≥ 35 then some ("Edad", toString p.age ++ " años - Hombre (inicio de riesgo por edad)")
    else none
  else
    if p.age ≥ 65 then some ("Edad", toString p.age ++ " años - Mujer (riesgo alto post-menopáusico)")
    else if p.age ≥ 55 then some ("Edad", toString p.age ++ " años - Mujer (riesgo moderado post-menopáusico)")
    else if p.age ≥ 50 then some ("Edad", toString p.age ++ " años - Mujer (transición menopáusica)")
    else none

/-- Smoking entry (predictor.py lines 398-404). -/
def smokingFactor (p : PatientData) : Option (String × String) :=
  if p.smoking = "Current" then
    if p.age ≥ 50 then some ("Tabaquismo", "Fumador actual - CRÍTICO en su edad (daño acumulativo)")
    else some ("Tabaquismo", "Fumador actual - Factor de riesgo mayor modificable")
  else if p.smoking = "Former" then
    some ("Tabaquismo", "Ex-fumador (riesgo residual, pero ¡felicitaciones por dejarlo!)")
  else none

/-- Diabetes entry (predictor.py lines 407-411). -/
def diabetesFactor (p : PatientData) : Option (String × String) :=
  if p.diabetes = "Yes" then
    if p.age ≥ 50 then some ("Diabetes", "Diabetes presente - MUY GRAVE en su edad (riesgo cardiovascular duplicado)")
    else some ("Diabetes", "Diabetes presente - Requiere control estricto para prevenir complicaciones")
  else none

/-- Obesity entry (predictor.py lines 414-418). -/
def obesityFactor (p : PatientData) : Option (String × String) :=
  if p.obesity = "Yes" then
    if p.age ≤ 40 then some ("Obesidad", "Obesidad presente - Especialmente preocupante a su edad")
    else some ("Obesidad", "Obesidad presente - Factor de riesgo modificable importante")
  else none

/-- Family-history entry (predictor.py lines 421-425). -/
def familyFactor (p : PatientData) : Option (String × String) :=
  if p.family_history = "Yes" then
    if p.age ≤ 45 then some ("Historia Familiar", "Historia familiar positiva - MUY RELEVANTE a su edad (predisposición genética)")
    else some ("Historia Familiar", "Historia familiar positiva - Aumenta el riesgo base")
  else none

/-- Exercise entry (predictor.py lines 428-433): three bands; the first
two share the key "Sedentarismo", the third uses "Actividad Baja". -/
def exerciseFactor (p : PatientData) : Option (String × String) :=
  if p.exercise_hours < 0.5 then
    some ("Sedentarismo", "Sedentarismo extremo - Solo " ++ toString p.exercise_hours ++ "h/semana (¡URGENTE cambiar!)")
  else if p.exercise_hours < 1.5 then
    some ("Sedentarismo", "Actividad insuficiente - " ++ toString p.exercise_hours ++ "h/semana (mínimo recomendado: 2.5h)")
  else if p.exercise_hours < 2.5 then
    some ("Actividad Baja", "Ejercicio por debajo del óptimo - " ++ toString p.exercise_hours ++ "h/semana")
  else none

/-- Stress entry (predictor.py lines 436-441). -/
def stressFactor (p : PatientData) : Option (String × String) :=
  if p.stress_level ≥ 9 then
    some ("Estrés", "Estrés extremo - Nivel " ++ toString p.stress_level ++ "/10 (¡CRISIS! Afecta directamente al corazón)")
  else if p.stress_level ≥ 8 then
    some ("Estrés", "Estrés muy alto - Nivel " ++ toString p.stress_level ++ "/10 (daño cardiovascular comprobado)")
  else if p.stress_level ≥ 6 then
    some ("Estrés", "Estrés elevado - Nivel " ++ toString p.stress_level ++ "/10 (puede aumentar presión arterial)")
  else none

/-- Alcohol entry (predictor.py lines 444-448). -/
def alcoholFactor (p : PatientData) : Option (String × String) :=
  if p.alcohol_intake = "Heavy" then
    if p.age ≥ 50 then some ("Alcohol", "Consumo alto de alcohol - Especialmente dañino a su edad")
    else some ("Alcohol", "Consumo alto de alcohol - Factor de riesgo cardiovascular")
  else none

/-- Smoker-and-diabetic synergy entry (predictor.py lines 451-452). -/
def criticalComboFactor (p : PatientData) : Option (String × String) :=
  if p.smoking = "Current" ∧ p.diabetes = "Yes" then
    some ("⚠️ COMBINACIÓN CRÍTICA", "Diabetes + Tabaquismo = Riesgo exponencial")
  else none

/-- Metabolic-syndrome synergy entry (predictor.py lines 454-455). -/
def metabolicSyndromeFactor (p : PatientData) : Option (String × String) :=
  if p.obesity = "Yes" ∧ p.diabetes = "Yes" ∧ p.exercise_hours < 1 then
    some ("⚠️ SÍNDROME METABÓLICO", "Obesidad + Diabetes + Sedentarismo = Muy alto riesgo")
  else none

/-- Stress-and-sedentary synergy entry (predictor.py lines 457-458). -/
def viciousCircleFactor (p : PatientData) : Option (String × String) :=
  if p.stress_level ≥ 8 ∧ p.exercise_hours < 1 then
    some ("⚠️ CÍRCULO VICIOSO", "Estrés alto + Sedentarismo = Se refuerzan mutuamente")
  else none

/-- `get_risk_factors` (predictor.py lines 377-460): the ordered factor
map, a function of the patient record alone. -/
def get_risk_factors (p : PatientData) : List (String × String) :=
  (ageFactor p).toList ++ (smokingFactor p).toList ++ (diabetesFactor p).toList ++
  (obesityFactor p).toList ++ (familyFactor p).toList ++ (exerciseFactor p).toList ++
  (stressFactor p).toList ++ (alcoholFactor p).toList ++ (criticalComboFactor p).toList ++
  (metabolicSyndromeFactor p).toList ++ (viciousCircleFactor p).toList

/-- Python's `sub in s` substring test, via `splitOn`: the pattern occurs
in `s` iff splitting on it yields more than one piece. -/
def containsSub (s sub : String) : Bool := (s.splitOn sub).length ≥ 2

/-- `get_recommendations` (predictor.py lines 462-525). -/
def get_recommendations (probability : ℚ) (risk_factors : List (String × String)) :
    List String :=
  let recommendations : List String :=
    if probability ≥ 0.6 then
      ["🚨 ALTA PRIORIDAD: Consulte a un cardiólogo INMEDIATAMENTE",
       "📊 Exámenes urgentes: ECG, perfil lipídico completo, ecocardiograma",
       "💊 Evalúe medicación preventiva con su médico (estatinas, aspirina)",
       "📈 Monitoreo semanal de presión arterial"]
    else if probability ≥ 0.35 then
      ["⚠️ Programe consulta médica en las próximas 2-4 semanas",
       "🔍 Realice exámenes cardiovasculares: ECG, perfil lipídico",
       "� Chequeos médicos cada 3-6 meses",
       "📈 Monitoree presión arterial mensualmente"]
    else
      ["✅ Excelente perfil cardiovascular - Continue así",
       "📅 Mantenga chequeos médicos anuales preventivos",
       "🎯 Enfoque en mantener hábitos saludables actuales",
       "💚 Su estilo de vida está protegiendo su corazón"]
  let recommendations := recommendations ++
    (match risk_factors.lookup "Tabaquismo" with
     | some t =>
        if containsSub t "actual" then
          ["🚭 CRÍTICO: Deje de fumar HOY - es su prioridad #1",
           "📞 Línea de ayuda para dejar de fumar: consiga apoyo profesional"]
        else ["👏 Excelente por haber dejado de fumar - manténgase así"]
     | none => [])
  let recommendations := recommendations ++
    (if (risk_factors.lookup "Sedentarismo").isSome then
      ["🏃‍♂️ URGENTE: Inicie programa de ejercicio gradual",
       "🚶‍♂️ Comience con 15 min diarios de caminata, aumente gradualmente",
       "🎯 Meta: 150 minutos de ejercicio moderado por semana"]
     else if probability < 0.35 then
      ["🏆 Su nivel de ejercicio está protegiendo su corazón"]
     else [])
  let recommendations := recommendations ++
    (if (risk_factors.lookup "Obesidad").isSome then
      ["⚖️ IMPORTANTE: Plan de pérdida de peso con nutricionista",
       "🥗 Dieta mediterránea recomendada para la salud cardiovascular",
       "🎯 Objetivo inicial: reducir 5-10% del peso actual"]
     else [])
  let recommendations := recommendations ++
    (match risk_factors.lookup "Estrés" with
     | some t =>
        if containsSub t "muy alto" then
          ["🧘‍♂️ URGENTE: Técnicas de manejo del estrés - meditación, yoga",
           "😴 Priorice 7-8 horas de sueño reparador",
           "🗣️ Considere apoyo psicológico para manejo del estrés"]
        else ["🧘‍♂️ Practique relajación diaria: 10-15 minutos"]
     | none => [])
  let recommendations := recommendations ++
    (if (risk_factors.lookup "Diabetes").isSome then
      ["🩺 CRÍTICO: Control estricto de diabetes con endocrinólogo",
       "📊 Hemoglobina glicada (HbA1c) objetivo: < 7%",
       "🍎 Nutricionista especializada en diabetes"]
     else [])
  let recommendations := recommendations ++
    (match risk_factors.lookup "Alcohol" with
     | some t =>
        if containsSub t "alto" then
          ["🍷 Reduzca consumo de alcohol: máximo 1-2 bebidas/día",
           "🚫 Considere días sin alcohol durante la semana"]
        else []
     | none => [])
  recommendations ++
    (if probability < 0.2 then
      ["🌟 ¡Felicitaciones! Su perfil cardiovascular es excelente",
       "🛡️ Sus hábitos saludables son su mejor medicina preventiva"]
     else [])

/-! ### The `/predict` endpoint (`app/main.py` lines 76-110) -/

/-- Response shape of `PredictionResponse` (`app/models.py` lines 92-99). -/
structure PredictionResponse where
  risk_prediction : String
  risk_probability : ℚ
  confidence_interval : ℚ × ℚ
  risk_factors : List (String × String)
  recommendations : List String
  disclaimer : String

/-- Python's `round(x, 3)` modelled as rounding to a multiple of 1/1000
(Python breaks exact ties to even; no claim depends on tie behavior). -/
def round3 (x : ℚ) : ℚ := (round (x * 1000) : ℤ) / 1000

/-- The `/predict` handler body (`app/main.py` lines 87-110). -/
def predict_risk (clf : RiskClassifier) (cat : EncodingCatalog)
    (scaler : List ℚ → List ℚ) (std : List ℚ → ℚ) (p : PatientData) :
    Except EncodingError PredictionResponse := do
  let (_prediction, probability, confidence_interval) ← predict clf cat scaler std p
  let risk_level := get_risk_level probability
  let risk_factors := get_risk_factors p
  let recommendations := get_recommendations probability risk_factors
  return { risk_prediction := risk_level,
           risk_probability := round3 probability,
           confidence_interval := (round3 confidence_interval.1, round3 confidence_interval.2),
           risk_factors := risk_factors,
           recommendations := recommendations,
           disclaimer := "Esta predicción es solo orientativa y no reemplaza la consulta médica profesional." }

/-! ### Concrete instances used by the verification -/

/-- Rank of a risk tier label, for stating monotonicity of
`get_risk_level` ("Bajo Riesgo" < "Riesgo Moderado" < "Alto Riesgo"). -/
def tierRank (s : String) : ℕ :=
  if s = "Alto Riesgo" then 2 else if s = "Riesgo Moderado" then 1 else 0

/-- The spec's floor-example record: age 68 male current smoker, heavy
drinker, no exercise, diabetic, family history, obese, stress 10. -/
def highRiskRecord : PatientData :=
  ⟨68, "Male", "Current", "Heavy", 0, "Yes", "Yes", "Yes", 10⟩

/-- The spec's cap-example record: age 22 female never-smoker, light
drinker, 7 h exercise, no conditions, stress 1. -/
def healthyRecord : PatientData :=
  ⟨22, "Female", "Never", "Light", 7, "No", "No", "No", 1⟩

/-- A valid record with high stress and one age risk factor, used to probe
the stress rule's order sensitivity. -/
def c4Record : PatientData := ⟨65, "Male", "Never", "None", 2, "No", "No", "No", 10⟩

/-- The risk rule groups with the stress rule moved to the front. -/
def stressFirstOrder : List RiskRule :=
  [RiskRule.stress, RiskRule.age, RiskRule.smoking, RiskRule.diabetes, RiskRule.obesity,
   RiskRule.family, RiskRule.alcohol, RiskRule.exercise]

/-- The seven additive risk rule groups with the first two swapped. -/
def additiveRiskSwapped : List RiskRule :=
  [RiskRule.smoking, RiskRule.age, RiskRule.diabetes, RiskRule.obesity,
   RiskRule.family, RiskRule.alcohol, RiskRule.exercise]

/-- The protective rule groups with the first two swapped. -/
def protectiveSwapped : List ProtectiveRule :=
  [ProtectiveRule.exercise, ProtectiveRule.age, ProtectiveRule.smoking,
   ProtectiveRule.alcohol, ProtectiveRule.stress, ProtectiveRule.diabetesAbsent,
   ProtectiveRule.obesityAbsent, ProtectiveRule.cleanBonus]

/-- Modelled from the spec: the `encoding_info` pickle is not in the
repository; this is a representative catalog instance with the documented
categorical domains, the nine features in their spec order, and a
normalized subset.  The claims settled with it depend only on the maps'
domains, not the particular codes. -/
def sampleCatalog : EncodingCatalog where
  genderEnc := fun v => if v = "Female" then some 0 else if v = "Male" then some 1 else none
  smokingEnc := fun v => if v = "Never" then some 2 else if v = "Former" then some 1
    else if v = "Current" then some 0 else none
  diabetesEnc := fun v => if v = "No" then some 0 else if v = "Yes" then some 1 else none
  familyHistoryEnc := fun v => if v = "No" then some 0 else if v = "Yes" then some 1 else none
  obesityEnc := fun v => if v = "No" then some 0 else if v = "Yes" then some 1 else none
  features := ["Age", "Gender", "Smoking", "Alcohol Intake", "Exercise Hours",
    "Diabetes", "Family History", "Obesity", "Stress Level"]
  scaler_features := ["Age", "Exercise Hours", "Stress Level"]

/-- A record valid except for an unrecognized `alcohol_intake` value. -/
def badAlcoholRecord : PatientData := ⟨55, "Male", "Never", "Binge", 2, "No", "No", "No", 5⟩

/-- A record valid except for an unrecognized `gender` value. -/
def badGenderRecord : PatientData := ⟨55, "Mail", "Never", "Light", 2, "No", "No", "No", 5⟩

/-- A valid record in the extreme-sedentary exercise band (below 0.5 h). -/
def sedentaryRecord : PatientData := ⟨30, "Male", "Never", "None", 0.2, "No", "No", "No", 5⟩

/-- A valid record in the insufficient-activity exercise band ([0.5, 1.5) h). -/
def lowActiveRecord : PatientData := ⟨30, "Male", "Never", "None", 1, "No", "No", "No", 5⟩

/-- Order-independence of the two accumulators as claimed: every
permutation of the risk rule groups (and of the protective rule groups)
yields the same final scores on every valid record. -/
def c4_statement : Prop :=
  ∀ p : PatientData, ValidRecord p →
    (∀ l : List RiskRule, l.Perm riskRuleOrder →
      evalRiskRules l p = evalRiskRules riskRuleOrder p) ∧
    (∀ l : List ProtectiveRule, l.Perm protectiveRuleOrder →
      evalProtectiveRules l p = evalProtectiveRules protectiveRuleOrder p)

/-- The claim that a record whose `alcohol_intake` is unrecognized makes
the feature encoder fail (rather than being silently coerced). -/
def c5_statement : Prop :=
  ∀ (cat : EncodingCatalog) (scaler : List ℚ → List ℚ) (p : PatientData),
    p.alcohol_intake ≠ "None" → p.alcohol_intake ≠ "Light" →
    p.alcohol_intake ≠ "Moderate" → p.alcohol_intake ≠ "Heavy" →
    ∃ e, preprocess_data cat scaler p = Except.error e

/-- The distinct-keys clause of the exercise-band claim: records falling
in different exercise bands receive factor entries under different keys. -/
def c9_statement : Prop :=
  ∀ r1 r2 : PatientData, ValidRecord r1 → ValidRecord r2 →
    r1.exercise_hours < 0.5 → 0.5 ≤ r2.exercise_hours → r2.exercise_hours < 2.5 →
    (exerciseFactor r1).map Prod.fst ≠ (exerciseFactor r2).map Prod.fst

/-! ### Helper lemmas -/

/-- Helper: every risk rule group other than the stress rule ignores the
accumulated risk score. -/
theorem riskRuleEval_const (r : RiskRule) (hr : r ≠ RiskRule.stress) (p : PatientData) (a : ℚ) :
    riskRuleEval r p a = riskRuleEval r p 0 := by
  cases r <;> first | rfl | exact absurd rfl hr

/-- Helper: folding stress-free risk rules from any start adds their sum. -/
theorem evalRiskRules_aux (p : PatientData) (l : List RiskRule) (hl : RiskRule.stress ∉ l) (a : ℚ) :
    l.foldl (fun acc r => acc + riskRuleEval r p acc) a
      = a + (l.map (fun r => riskRuleEval r p 0)).sum := by
  induction l generalizing a with
  | nil => simp
  | cons r t ih =>
      have hr : r ≠ RiskRule.stress := by
        intro e; exact hl (e ▸ List.mem_cons_self r t)
      have ht : RiskRule.stress ∉ t := fun m => hl (List.mem_cons_of_mem _ m)
      simp only [List.foldl_cons, List.map_cons, List.sum_cons]
      rw [riskRuleEval_const r hr p a, ih ht]
      ring

/-- Helper: on a stress-free rule list the accumulator evaluation is the
plain sum of the contributions. -/
theorem evalRiskRules_eq_sum (p : PatientData) (l : List RiskRule) (hl : RiskRule.stress ∉ l) :
    evalRiskRules l p = (l.map (fun r => riskRuleEval r p 0)).sum := by
  unfold evalRiskRules
  rw [evalRiskRules_aux p l hl 0]
  ring

/-- Helper: the protective accumulator evaluation is a plain sum. -/
theorem evalProtectiveRules_aux (p : PatientData) (l : List ProtectiveRule) :
    ∀ a : ℚ, l.foldl (fun acc r => acc + protectiveRuleEval r p) a
      = a + (l.map (fun r => protectiveRuleEval r p)).sum := by
  induction l with
  | nil => intro a; simp
  | cons r t ih =>
      intro a
      simp only [List.foldl_cons, List.map_cons, List.sum_cons]
      rw [ih]
      ring

/-- Helper: `riskScore` is the rule-list evaluation in the source's order. -/
theorem riskScore_eq_evalRules (p : PatientData) :
    riskScore p = evalRiskRules riskRuleOrder p := by
  have h : (0:ℚ) + ageRisk p + smokingRisk p + diabetesRisk p + obesityRisk p + familyRisk p
      + alcoholRisk p = preStressRisk p := by
    unfold preStressRisk; ring
  simp only [evalRiskRules, riskRuleOrder, List.foldl, riskRuleEval, h]
  unfold riskScore; ring

/-- Helper: `protectiveScore` is the rule-list evaluation in the source's
order. -/
theorem protectiveScore_eq_evalRules (p : PatientData) :
    protectiveScore p = evalProtectiveRules protectiveRuleOrder p := by
  simp only [evalProtectiveRules, protectiveRuleOrder, List.foldl, protectiveRuleEval]
  unfold protectiveScore; ring

/-! ### Claims -/

/-- Claim C1: for every valid patient record and every base probability in
[0, 1], the value returned by `_apply_medical_logic` (after blending,
overrides and synergy multipliers) lies in the closed interval
[0.01, 0.99]. -/
theorem adjusted_probability_within_range (p : PatientData) (b : ℚ)
    (hv : ValidRecord p) (hb0 : 0 ≤ b) (hb1 : b ≤ 1) :
    0.01 ≤ apply_medical_logic p b ∧ apply_medical_logic p b ≤ 0.99 := by
  unfold apply_medical_logic
  exact ⟨le_max_left _ _, max_le (by norm_num) (min_le_left _ _)⟩

/-- Witness for claim C1 at the floor-example record and base 0.5. -/
theorem adjusted_probability_within_range_witness :
    0.01 ≤ apply_medical_logic highRiskRecord 0.5 ∧
      apply_medical_logic highRiskRecord 0.5 ≤ 0.99 :=
  adjusted_probability_within_range highRiskRecord 0.5 (by decide) (by norm_num) (by norm_num)

/-- Claim C2: for the record age 68, male, current smoker, heavy drinker,
no exercise, diabetic, family history, obese, stress 10, and every base
probability in [0, 1], `_apply_medical_logic` returns at least 0.65: the
high-risk override floors the value at 0.65 and every later stage (the
metabolic-syndrome floor, the major-risk-factor floor, and the two synergy
multipliers which only increase a nonnegative value) preserves that floor,
as does the final clamp. -/
theorem high_risk_profile_floor (b : ℚ) (hb0 : 0 ≤ b) (hb1 : b ≤ 1) :
    0.65 ≤ apply_medical_logic highRiskRecord b := by
  have h2 : ∀ x : ℚ, (0.65:ℚ) ≤ overrideHighRisk highRiskRecord x := by
    intro x; simp [overrideHighRisk, highRiskRecord]
  have h3 : ∀ x : ℚ, overrideYoungWoman highRiskRecord x = x := by
    intro x; simp [overrideYoungWoman, highRiskRecord]
  have h4 : ∀ x : ℚ, overrideYoungMaleSmoker highRiskRecord x = x := by
    intro x; simp [overrideYoungMaleSmoker, highRiskRecord]
  have h5 : ∀ x : ℚ, (0.65:ℚ) ≤ x → (0.65:ℚ) ≤ overrideMetabolicSyndrome highRiskRecord x := by
    intro x hx; simp [overrideMetabolicSyndrome, highRiskRecord]; left; exact hx
  have h6 : ∀ x : ℚ, overrideExtremeExercise highRiskRecord x = x := by
    intro x; simp [overrideExtremeExercise, highRiskRecord]
  have h7 : ∀ x : ℚ, (0.65:ℚ) ≤ x → (0.65:ℚ) ≤ overrideMajorFactors highRiskRecord x := by
    intro x hx; simp [overrideMajorFactors, majorRiskFactors, highRiskRecord]; left; exact hx
  have h8 : ∀ x : ℚ, (0.65:ℚ) ≤ x → (0.65:ℚ) ≤ synergySmokerDiabetic highRiskRecord x := by
    intro x hx; simp [synergySmokerDiabetic, highRiskRecord]; linarith
  have h9 : ∀ x : ℚ, (0.65:ℚ) ≤ x → (0.65:ℚ) ≤ synergyStressSedentary highRiskRecord x := by
    intro x hx; simp [synergyStressSedentary, highRiskRecord]; linarith
  unfold apply_medical_logic adjustedBeforeClamp
  set x0 := overrideYoungHealthy highRiskRecord (blendedProb highRiskRecord b) with hx0
  have k1 : (0.65:ℚ) ≤ overrideHighRisk highRiskRecord x0 := h2 x0
  have k2 : (0.65:ℚ) ≤ overrideYoungWoman highRiskRecord (overrideHighRisk highRiskRecord x0) := by
    rw [h3]; exact k1
  have k3 : (0.65:ℚ) ≤ overrideYoungMaleSmoker highRiskRecord
      (overrideYoungWoman highRiskRecord (overrideHighRisk highRiskRecord x0)) := by
    rw [h4]; exact k2
  have k4 := h5 _ k3
  have k5 : (0.65:ℚ) ≤ overrideExtremeExercise highRiskRecord
      (overrideMetabolicSyndrome highRiskRecord (overrideYoungMaleSmoker highRiskRecord
        (overrideYoungWoman highRiskRecord (overrideHighRisk highRiskRecord x0)))) := by
    rw [h6]; exact k4
  have k6 := h7 _ k5
  have k7 := h8 _ k6
  have k8 := h9 _ k7
  exact le_trans (le_min (by norm_num) k8) (le_max_right _ _)

/-- Witness for claim C2 at base probability 0. -/
theorem high_risk_profile_floor_witness :
    0.65 ≤ apply_medical_logic highRiskRecord 0 :=
  high_risk_profile_floor 0 (le_refl 0) (by norm_num)

/-- Claim C3: for the record age 22, female, never-smoker, light drinker,
7 h exercise, no diabetes, no family history, no obesity, stress 1, and
every base probability in [0, 1], `_apply_medical_logic` returns at most
0.12: the young-woman override caps the value at 0.08, the
extreme-exercise override multiplies by 0.8, and the final clamp keeps the
result at most 0.064 ≤ 0.12. -/
theorem healthy_profile_cap (b : ℚ) (hb0 : 0 ≤ b) (hb1 : b ≤ 1) :
    apply_medical_logic healthyRecord b ≤ 0.12 := by
  have h3 : ∀ x : ℚ, overrideYoungWoman healthyRecord x ≤ 0.08 := by
    intro x; norm_num [overrideYoungWoman, healthyRecord]
  have h4 : ∀ x : ℚ, overrideYoungMaleSmoker healthyRecord x = x := by
    intro x; simp [overrideYoungMaleSmoker, healthyRecord]
  have h5 : ∀ x : ℚ, overrideMetabolicSyndrome healthyRecord x = x := by
    intro x; simp [overrideMetabolicSyndrome, healthyRecord]
  have h6 : ∀ x : ℚ, overrideExtremeExercise healthyRecord x = x * 0.8 := by
    intro x; norm_num [overrideExtremeExercise, healthyRecord]
  have h7 : ∀ x : ℚ, overrideMajorFactors healthyRecord x = x := by
    intro x; simp [overrideMajorFactors, majorRiskFactors, healthyRecord]
  have h8 : ∀ x : ℚ, synergySmokerDiabetic healthyRecord x = x := by
    intro x; simp [synergySmokerDiabetic, healthyRecord]
  have h9 : ∀ x : ℚ, synergyStressSedentary healthyRecord x = x := by
    intro x; simp [synergyStressSedentary, healthyRecord]
  unfold apply_medical_logic adjustedBeforeClamp
  rw [h9, h8, h7, h6, h5, h4]
  have k3 := h3 (overrideHighRisk healthyRecord
    (overrideYoungHealthy healthyRecord (blendedProb healthyRecord b)))
  refine max_le (by norm_num) (le_trans (min_le_right _ _) ?_)
  linarith

/-- Witness for claim C3 at base probability 1. -/
theorem healthy_profile_cap_witness :
    apply_medical_logic healthyRecord 1 ≤ 0.12 :=
  healthy_profile_cap 1 (by norm_num) (le_refl 1)

/-- Counterexample to claim C4 as stated: on the valid record age 65,
male, never-smoker, stress 10, moving the stress rule in front of the
other risk rules changes the final risk score (0.4 instead of 0.4168),
because the stress rule multiplies its base 0.12 by a synergy factor
depending on the risk accumulated before it. -/
theorem rule_order_counterexample : ¬ c4_statement := by
  intro h
  have h2 := (h c4Record (by decide)).1 stressFirstOrder (by decide)
  have e1 : evalRiskRules stressFirstOrder c4Record = 0.4 := by
    simp [evalRiskRules, stressFirstOrder, riskRuleEval, c4Record, List.foldl,
      ageRisk, smokingRisk, diabetesRisk, obesityRisk, familyRisk, alcoholRisk,
      stressRisk, exerciseRisk]
    norm_num
  have e2 : evalRiskRules riskRuleOrder c4Record = 0.4168 := by
    simp [evalRiskRules, riskRuleOrder, riskRuleEval, c4Record, List.foldl,
      ageRisk, smokingRisk, diabetesRisk, obesityRisk, familyRisk, alcoholRisk,
      stressRisk, exerciseRisk]
    norm_num
  rw [e1, e2] at h2
  norm_num at h2

/-- Claim C4 (amended): the protective rules and all risk rules except the
stress rule are additive and order-independent — permuting them leaves the
scores unchanged — but the stress rule's contribution depends on the risk
accumulated before it runs, so moving it relative to the other risk rules
can change the final riskScore; the source's scores equal the ordered
rule-list evaluations. -/
theorem rule_order_amended (p : PatientData) (lr : List RiskRule) (lp : List ProtectiveRule)
    (hr : lr.Perm additiveRiskRules) (hp : lp.Perm protectiveRuleOrder) :
    evalRiskRules lr p = evalRiskRules additiveRiskRules p ∧
    evalProtectiveRules lp p = evalProtectiveRules protectiveRuleOrder p ∧
    riskScore p = evalRiskRules riskRuleOrder p ∧
    protectiveScore p = evalProtectiveRules protectiveRuleOrder p := by
  refine ⟨?_, ?_, riskScore_eq_evalRules p, protectiveScore_eq_evalRules p⟩
  · have h1 : RiskRule.stress ∉ additiveRiskRules := by decide
    have h2 : RiskRule.stress ∉ lr := fun m => h1 (hr.mem_iff.mp m)
    rw [evalRiskRules_eq_sum p lr h2, evalRiskRules_eq_sum p additiveRiskRules h1]
    exact List.Perm.sum_eq (hr.map _)
  · unfold evalProtectiveRules
    rw [evalProtectiveRules_aux p lp 0, evalProtectiveRules_aux p protectiveRuleOrder 0]
    simp [List.Perm.sum_eq (hp.map _)]

/-- Witness for the amended claim C4 at a concrete record and concrete
permutations of the additive risk rules and the protective rules. -/
theorem rule_order_amended_witness :
    evalRiskRules additiveRiskSwapped c4Record = evalRiskRules additiveRiskRules c4Record ∧
    evalProtectiveRules protectiveSwapped c4Record =
      evalProtectiveRules protectiveRuleOrder c4Record ∧
    riskScore c4Record = evalRiskRules riskRuleOrder c4Record ∧
    protectiveScore c4Record = evalProtectiveRules protectiveRuleOrder c4Record :=
  rule_order_amended c4Record additiveRiskSwapped protectiveSwapped (by decide) (by decide)

/-- Counterexample to claim C5 as stated: a record whose `alcohol_intake`
is the unrecognized value "Binge" sails through `preprocess_data` — the
encoder returns a vector in which the alcohol position was silently
coerced to code 2 — instead of failing with an encoding error. -/
theorem encoding_unrecognized_counterexample : ¬ c5_statement := by
  intro h
  obtain ⟨e, he⟩ :=
    h sampleCatalog id badAlcoholRecord (by decide) (by decide) (by decide) (by decide)
  have hv : preprocess_data sampleCatalog id badAlcoholRecord =
      Except.ok [55, 1, 2, 2, 2, 0, 0, 0, 5] := by
    simp [preprocess_data, lookupEnc, sampleCatalog, badAlcoholRecord, alcohol_mapping,
      assembleFeatures, dataDict, feature_mapping, applyScaler, Bind.bind, Except.bind,
      Except.map, List.range, List.range.loop, pure, Except.pure]
  rw [hv] at he
  exact Except.noConfusion he

/-- Claim C5 (amended): an unrecognized value for `gender`, `smoking`,
`diabetes`, `family_history` or `obesity` makes `preprocess_data` fail
with a key-lookup error naming the offending value; an unrecognized
`alcohol_intake` does not fail — it is silently coerced to numeric code 2,
so encoding proceeds exactly as if the value had been "Moderate". -/
theorem encoding_unrecognized_amended :
    (∀ s : String, s ≠ "None" → s ≠ "Light" → s ≠ "Moderate" → s ≠ "Heavy" →
      (alcohol_mapping s).getD 2 = 2) ∧
    (∀ (p : PatientData) (a : String), a ≠ "None" → a ≠ "Light" → a ≠ "Moderate" →
      a ≠ "Heavy" → ∀ (cat : EncodingCatalog) (scaler : List ℚ → List ℚ),
      preprocess_data cat scaler { p with alcohol_intake := a } =
        preprocess_data cat scaler { p with alcohol_intake := "Moderate" }) ∧
    (∀ (cat : EncodingCatalog) (scaler : List ℚ → List ℚ) (p : PatientData),
      cat.genderEnc p.gender = none →
      preprocess_data cat scaler p = Except.error (EncodingError.keyError p.gender)) ∧
    (∀ (cat : EncodingCatalog) (scaler : List ℚ → List ℚ) (p : PatientData) (g : ℚ),
      cat.genderEnc p.gender = some g → cat.smokingEnc p.smoking = none →
      preprocess_data cat scaler p = Except.error (EncodingError.keyError p.smoking)) ∧
    (∀ (cat : EncodingCatalog) (scaler : List ℚ → List ℚ) (p : PatientData) (g s : ℚ),
      cat.genderEnc p.gender = some g → cat.smokingEnc p.smoking = some s →
      cat.diabetesEnc p.diabetes = none →
      preprocess_data cat scaler p = Except.error (EncodingError.keyError p.diabetes)) ∧
    (∀ (cat : EncodingCatalog) (scaler : List ℚ → List ℚ) (p : PatientData) (g s d : ℚ),
      cat.genderEnc p.gender = some g → cat.smokingEnc p.smoking = some s →
      cat.diabetesEnc p.diabetes = some d → cat.familyHistoryEnc p.family_history = none →
      preprocess_data cat scaler p = Except.error (EncodingError.keyError p.family_history)) ∧
    (∀ (cat : EncodingCatalog) (scaler : List ℚ → List ℚ) (p : PatientData) (g s d f : ℚ),
      cat.genderEnc p.gender = some g → cat.smokingEnc p.smoking = some s →
      cat.diabetesEnc p.diabetes = some d → cat.familyHistoryEnc p.family_history = some f →
      cat.obesityEnc p.obesity = none →
      preprocess_data cat scaler p = Except.error (EncodingError.keyError p.obesity)) := by
  refine ⟨?_, ?_, ?_, ?_, ?_, ?_, ?_⟩
  · intro s h1 h2 h3 h4
    simp [alcohol_mapping, h1, h2, h3, h4]
  · intro p a h1 h2 h3 h4 cat scaler
    have hd : dataDict { p with alcohol_intake := a } =
        dataDict { p with alcohol_intake := "Moderate" } := by
      funext g s d f o ac key
      simp [dataDict]
    simp [preprocess_data, alcohol_mapping, h1, h2, h3, h4, hd]
  · intro cat scaler p hg
    simp [preprocess_data, lookupEnc, hg, Bind.bind, Except.bind]
  · intro cat scaler p g hg hs
    simp [preprocess_data, lookupEnc, hg, hs, Bind.bind, Except.bind]
  · intro cat scaler p g s hg hs hd
    simp [preprocess_data, lookupEnc, hg, hs, hd, Bind.bind, Except.bind]
  · intro cat scaler p g s d hg hs hd hf
    simp [preprocess_data, lookupEnc, hg, hs, hd, hf, Bind.bind, Except.bind]
  · intro cat scaler p g s d f hg hs hd hf ho
    simp [preprocess_data, lookupEnc, hg, hs, hd, hf, ho, Bind.bind, Except.bind]

/-- Witness for the amended claim C5: the unrecognized alcohol value
"Binge" is coerced to code 2, and an unrecognized gender value fails with
a key error naming it. -/
theorem encoding_unrecognized_amended_witness :
    (alcohol_mapping "Binge").getD 2 = 2 ∧
    preprocess_data sampleCatalog id badGenderRecord =
      Except.error (EncodingError.keyError "Mail") :=
  ⟨encoding_unrecognized_amended.1 "Binge" (by decide) (by decide) (by decide) (by decide),
   encoding_unrecognized_amended.2.2.1 sampleCatalog id badGenderRecord (by decide)⟩

/-- Claim C6: `get_risk_level` is a pure function of the probability that
returns the high label "Alto Riesgo" exactly when p ≥ 0.6, the moderate
label "Riesgo Moderado" exactly when 0.35 ≤ p < 0.6, and the low label
"Bajo Riesgo" otherwise; consequently it is monotone non-decreasing and
partitions the line (hence [0, 1]) into three contiguous ranges with
boundaries 0.35 and 0.6. -/
theorem risk_level_partition_monotone (p q : ℚ) :
    ((get_risk_level p = "Alto Riesgo" ↔ 0.6 ≤ p) ∧
     (get_risk_level p = "Riesgo Moderado" ↔ 0.35 ≤ p ∧ p < 0.6) ∧
     (get_risk_level p = "Bajo Riesgo" ↔ p < 0.35)) ∧
    (p ≤ q → tierRank (get_risk_level p) ≤ tierRank (get_risk_level q)) := by
  have t1 : tierRank "Alto Riesgo" = 2 := by simp [tierRank]
  have t2 : tierRank "Riesgo Moderado" = 1 := by simp [tierRank]
  have t3 : tierRank "Bajo Riesgo" = 0 := by simp [tierRank]
  constructor
  · unfold get_risk_level
    split_ifs with e1 e2 <;>
      refine ⟨?_, ?_, ?_⟩ <;> simp_all <;> linarith
  · intro hpq
    unfold get_risk_level
    split_ifs <;> simp only [t1, t2, t3] <;> first | (exfalso; linarith) | norm_num

/-- Witness for claim C6: monotonicity instantiated at 0.5 ≤ 0.7. -/
theorem risk_level_partition_monotone_witness :
    tierRank (get_risk_level 0.5) ≤ tierRank (get_risk_level 0.7) :=
  (risk_level_partition_monotone 0.5 0.7).2 (by norm_num)

/-- Claim C7: for every adjusted probability p in [0.01, 0.99] and every
nonnegative ensemble standard deviation, both the ensemble confidence
interval [max(0, p − 1.96σ), min(1, p + 1.96σ)] and the fixed fallback
interval [max(0, p − 0.1), min(1, p + 0.1)] bracket p and have both bounds
in [0, 1]. -/
theorem confidence_interval_brackets (p σ : ℚ) (hp1 : 0.01 ≤ p) (hp2 : p ≤ 0.99)
    (hσ : 0 ≤ σ) :
    (0 ≤ (confidence_interval_ensemble p σ).1 ∧
      (confidence_interval_ensemble p σ).1 ≤ p ∧
      p ≤ (confidence_interval_ensemble p σ).2 ∧
      (confidence_interval_ensemble p σ).2 ≤ 1 ∧
      (confidence_interval_ensemble p σ).1 ≤ 1 ∧
      0 ≤ (confidence_interval_ensemble p σ).2) ∧
    (0 ≤ (confidence_interval_fixed p).1 ∧
      (confidence_interval_fixed p).1 ≤ p ∧
      p ≤ (confidence_interval_fixed p).2 ∧
      (confidence_interval_fixed p).2 ≤ 1 ∧
      (confidence_interval_fixed p).1 ≤ 1 ∧
      0 ≤ (confidence_interval_fixed p).2) := by
  unfold confidence_interval_ensemble confidence_interval_fixed
  refine ⟨⟨le_max_left _ _, max_le (by linarith) (by nlinarith), ?_, min_le_left _ _,
      max_le (by linarith) (by nlinarith), ?_⟩,
    ⟨le_max_left _ _, max_le (by linarith) (by linarith), ?_, min_le_left _ _,
      max_le (by linarith) (by linarith), ?_⟩⟩
  · exact le_min (by linarith) (by nlinarith)
  · exact le_trans (by linarith : (0:ℚ) ≤ p) (le_min (by linarith) (by nlinarith))
  · exact le_min (by linarith) (by linarith)
  · exact le_trans (by linarith : (0:ℚ) ≤ p) (le_min (by linarith) (by linarith))

/-- Witness for claim C7 at p = 0.5, σ = 0.1. -/
theorem confidence_interval_brackets_witness :
    0 ≤ (confidence_interval_ensemble 0.5 0.1).1 :=
  ((confidence_interval_brackets 0.5 0.1 (by norm_num) (by norm_num) (by norm_num)).1).1

/-- Claim C8: the risk-factor map is a function of the patient record
alone — running the `/predict` pipeline with any two classifiers (hence
any base and adjusted probabilities) yields identical factor maps, same
keys, texts and order. -/
theorem risk_factors_classifier_independent (clf₁ clf₂ : RiskClassifier)
    (cat : EncodingCatalog) (scaler : List ℚ → List ℚ) (std : List ℚ → ℚ)
    (p : PatientData) :
    (predict_risk clf₁ cat scaler std p).map PredictionResponse.risk_factors =
    (predict_risk clf₂ cat scaler std p).map PredictionResponse.risk_factors := by
  unfold predict_risk predict
  cases h : preprocess_data cat scaler p <;>
    simp [h, Bind.bind, Except.bind, Except.map, pure, Except.pure]

/-- Counterexample to claim C9 as stated: the exercise bands below 0.5 h
and below 1.5 h both emit their entry under the same key "Sedentarismo"
(with different texts), so the three bands do not use pairwise distinct
keys. -/
theorem exercise_band_keys_counterexample : ¬ c9_statement := by
  intro h
  apply h sedentaryRecord lowActiveRecord
    (by norm_num [ValidRecord, sedentaryRecord])
    (by norm_num [ValidRecord, lowActiveRecord])
    (by norm_num [sedentaryRecord]) (by norm_num [lowActiveRecord])
    (by norm_num [lowActiveRecord])
  norm_num [exerciseFactor, sedentaryRecord, lowActiveRecord]

/-- Claim C9 (amended): the exercise bands below 0.5 h and below 1.5 h
both emit their entry under the key "Sedentarismo" (with band-specific
texts), the band below 2.5 h under the distinct key "Actividad Baja";
at 2.5 h or more no entry is emitted, so for every record only the single
matching band's entry is present, and any emitted entry appears in the
risk-factor map. -/
theorem exercise_band_keys_amended (r : PatientData) :
    (r.exercise_hours < 0.5 →
      (exerciseFactor r).map Prod.fst = some "Sedentarismo") ∧
    (0.5 ≤ r.exercise_hours → r.exercise_hours < 1.5 →
      (exerciseFactor r).map Prod.fst = some "Sedentarismo") ∧
    (1.5 ≤ r.exercise_hours → r.exercise_hours < 2.5 →
      (exerciseFactor r).map Prod.fst = some "Actividad Baja") ∧
    (2.5 ≤ r.exercise_hours → exerciseFactor r = none) ∧
    (∀ e, exerciseFactor r = some e → e ∈ get_risk_factors r) := by
  refine ⟨?_, ?_, ?_, ?_, ?_⟩
  · intro h; unfold exerciseFactor; rw [if_pos h]; rfl
  · intro h1 h2; unfold exerciseFactor
    rw [if_neg (by linarith), if_pos h2]; rfl
  · intro h1 h2; unfold exerciseFactor
    rw [if_neg (by linarith), if_neg (by linarith), if_pos h2]; rfl
  · intro h; unfold exerciseFactor
    rw [if_neg (by linarith), if_neg (by linarith), if_neg (by linarith)]
  · intro e he
    unfold get_risk_factors
    simp [he]

/-- Witness for the amended claim C9 at the extreme-sedentary record. -/
theorem exercise_band_keys_amended_witness :
    (exerciseFactor sedentaryRecord).map Prod.fst = some "Sedentarismo" :=
  (exercise_band_keys_amended sedentaryRecord).1 (by norm_num [sedentaryRecord])

/-- Claim C10 (implicit): the final label returned by `predict` equals 1
exactly when the adjusted probability is at least 0.5, and the
classifier's own 0/1 prediction, although computed, never influences the
returned result — replacing it by any other function leaves the output
unchanged. -/
theorem final_label_threshold_only (clf : RiskClassifier) (g : List ℚ → ℤ)
    (cat : EncodingCatalog) (scaler : List ℚ → List ℚ) (std : List ℚ → ℚ)
    (p : PatientData) :
    (match predict clf cat scaler std p with
     | Except.ok out => out.1 = if out.2.1 ≥ 0.5 then 1 else 0
     | Except.error _ => True) ∧
    predict { clf with predict := g } cat scaler std p = predict clf cat scaler std p := by
  unfold predict
  cases h : preprocess_data cat scaler p <;>
    simp [h, Bind.bind, Except.bind, pure, Except.pure]

end CardioRisk
